import Mathlib

/-!
# The contract-creation form (`src/qt/createcontract.cpp`)

A shallow embedding of the `CreateContract` widget: its member variables and
the widgets of its form are fields of a state record, every slot of the class
is a function on that record, and signal/slot connections made in the
constructor are calls (a setter that emits a connected signal runs the slot).

Collaborators that live outside `createcontract.cpp` are either
* Qt library widgets, modelled with their documented behaviour
  (`QSpinBox`, `QStackedWidget`, `QTextEdit`, `QComboBox`), or
* classes of the wallet whose code is elsewhere; these are kept as small
  records and as fields of `Env`.
-/

set_option linter.dupNamespace false

namespace Qtum

/-! ## Machine integers -/

/-- Conversion of an integer to `uint64_t`: reduction modulo `2^64`. -/
def toUInt64 (x : Int) : Int := x % 2 ^ 64

/-- Conversion of an integer to `int64_t` (`CAmount`): two's-complement wrap. -/
def toInt64 (x : Int) : Int := (x + 2 ^ 63) % 2 ^ 64 - 2 ^ 63

/-- Conversion of an integer to `int`: two's-complement wrap to 32 bits. -/
def toInt32 (x : Int) : Int := (x + 2 ^ 31) % 2 ^ 32 - 2 ^ 31

/-- Modelled from the spec: `COIN` of `amount.h` (not part of this file), the
number of base units in one coin. -/
def COIN : Int := 100000000

/-! ## Constants written as `double` products

`SINGLE_STEP` and `HIGH_GASPRICE` are written `0.00000001*COIN` and `0.001*COIN`: a
decimal literal is read as the nearest binary64 value, `COIN` is converted to
`double`, the product is rounded to binary64, and the initialisation of the
`CAmount` truncates. Positive binary64 values are kept as exact fractions. -/

/-- Scaling of the fraction `n / d` for a 53-bit significand: double or halve it
until it lies in `[2^52, 2^53)`, counting the binary exponent. -/
def binary64Scale : Nat → Nat → Nat → Int → Nat × Nat × Int
  | 0, n, d, e => (n, d, e)
  | fuel + 1, n, d, e =>
    if n < 2 ^ 52 * d then binary64Scale fuel (2 * n) d (e - 1)
    else if 2 ^ 53 * d ≤ n then binary64Scale fuel n (2 * d) (e + 1)
    else (n, d, e)

/-- The integer nearest to `n / d`, ties to the even one. -/
def roundHalfEven (n d : Nat) : Nat :=
  let q := n / d
  let r := n % d
  if 2 * r < d then q else if d < 2 * r then q + 1 else if q % 2 = 0 then q else q + 1

/-- The binary64 value nearest to the positive fraction `n / d` (round to nearest,
ties to even; normal range), as a fraction `(numerator, denominator)`. -/
def toBinary64 (n d : Nat) : Nat × Nat :=
  let scaled := binary64Scale 2200 n d 0
  let m := roundHalfEven scaled.1 scaled.2.1
  if 0 ≤ scaled.2.2 then (m * 2 ^ scaled.2.2.toNat, 1) else (m, 2 ^ (-scaled.2.2).toNat)

/-- The conversion of a non-negative `CAmount` to `double`. -/
def doubleOfCAmount (a : Int) : Nat × Nat := toBinary64 a.toNat 1

/-- The product of two positive `double` values: the exact product, rounded. -/
def doubleMul (a b : Nat × Nat) : Nat × Nat := toBinary64 (a.1 * b.1) (a.2 * b.2)

/-- The conversion of a positive `double` to `CAmount`: truncation. -/
def doubleToCAmount (a : Nat × Nat) : Int := ((a.1 / a.2 : Nat) : Int)

/-! ## Qt library pieces -/

/-- Assignment through `QMap::operator[]` on an association list: replace the value of
an existing key, otherwise add the key. -/
def QMap.set {κ α : Type} [DecidableEq κ] (m : List (κ × α)) (k : κ) (v : α) : List (κ × α) :=
  match m with
  | [] => [(k, v)]
  | (k', v') :: rest => if k' = k then (k, v) :: rest else (k', v') :: QMap.set rest k v

/-- Lookup with `QMap::value(key)`, with a default for a missing key. -/
def QMap.value {κ α : Type} [DecidableEq κ] (m : List (κ × α)) (k : κ) (dflt : α) : α :=
  match m with
  | [] => dflt
  | (k', v') :: rest => if k' = k then v' else QMap.value rest k dflt

/-- Substitution with `QString::arg`: the `k`-th call on a template replaces the marker `%k`. -/
def QString.arg (template : String) (k : Nat) (a : String) : String :=
  template.replace ("%" ++ toString k) a

/-- Translation with `tr`: the untranslated source text. -/
def tr (s : String) : String := s

/-- A `QLabel`: its text and its tool tip. -/
structure QLabel where
  text : String
  toolTip : String
deriving DecidableEq, Repr

/-- A `QSpinBox`: an integer value kept inside the range `minimum..maximum`. -/
structure QSpinBox where
  minimum : Int
  maximum : Int
  value : Int
deriving DecidableEq, Repr

namespace QSpinBox

/-- Bounding as in `QAbstractSpinBoxPrivate::bound` without wrapping: force a value into the range. -/
def bound (b : QSpinBox) (v : Int) : Int :=
  let v := if v < b.minimum then b.minimum else v
  if v > b.maximum then b.maximum else v

/-- Range change `setRange(min, max)`: if `max` is smaller than `min`, `min` is the only legal
value; the current value is re-bounded. -/
def setRange (b : QSpinBox) (min max : Int) : QSpinBox :=
  let b1 : QSpinBox := { b with minimum := min, maximum := if min < max then max else min }
  { b1 with value := b1.bound b1.value }

/-- Setter `setMinimum(m)`: the maximum is adjusted if necessary so that the range stays valid. -/
def setMinimum (b : QSpinBox) (m : Int) : QSpinBox :=
  b.setRange m (if b.maximum > m then b.maximum else m)

/-- Setter `setMaximum(m)`: the minimum is adjusted if necessary so that the range stays valid. -/
def setMaximum (b : QSpinBox) (m : Int) : QSpinBox :=
  b.setRange (if b.minimum < m then b.minimum else m) m

/-- Setter `setValue(v)`: the value is forced into the legal range. -/
def setValue (b : QSpinBox) (v : Int) : QSpinBox :=
  { b with value := b.bound v }

end QSpinBox

/-- A `QStackedWidget`: the number of pages and the index of the page shown. -/
structure QStackedWidget where
  count : Nat
  currentIndex : Int
deriving DecidableEq, Repr

/-- The answer of `QMessageBox::question`. -/
inductive StandardButton
  | Yes
  | No
deriving DecidableEq, Repr

/-! ## Wallet classes used by the form -/

/-- Modelled from the spec: the amount field of the form (`BitcoinAmountField`,
not part of this file), a typed input field holding an amount in base units,
its step and its lower bound. -/
structure BitcoinAmountField where
  value : Int
  singleStep : Int
  minimum : Int
deriving DecidableEq, Repr

namespace BitcoinAmountField

/-- Modelled from the spec: `setValue` stores the amount. -/
def setValue (f : BitcoinAmountField) (v : Int) : BitcoinAmountField := { f with value := v }

/-- Modelled from the spec: `setSingleStep` stores the step. -/
def setSingleStep (f : BitcoinAmountField) (v : Int) : BitcoinAmountField := { f with singleStep := v }

/-- Modelled from the spec: `setMinimum` stores the lower bound. -/
def setMinimum (f : BitcoinAmountField) (v : Int) : BitcoinAmountField := { f with minimum := v }

end BitcoinAmountField

/-- Modelled from the spec: the sender address field (`AddressField`, a combo
box, not part of this file): the listed addresses and the current selection. -/
structure AddressField where
  items : List String
  currentIndex : Int
  currentText : String
deriving DecidableEq, Repr

/-- Selection with `QComboBox::setCurrentIndex`: an index outside the list selects nothing
(index `-1`, empty text). -/
def AddressField.setCurrentIndex (a : AddressField) (i : Int) : AddressField :=
  if 0 ≤ i ∧ i < a.items.length then
    { a with currentIndex := i, currentText := a.items.getD i.toNat "" }
  else
    { a with currentIndex := -1, currentText := "" }

/-- One entry of a contract ABI (`FunctionABI` of `contractabi.h`). -/
structure FunctionABI where
  name : String
  type : String
deriving DecidableEq, Repr

/-- The contract ABI object: the member `functions` indexed by the form. -/
structure ContractABI where
  functions : List FunctionABI
deriving DecidableEq, Repr

/-- Modelled from the spec: `ContractABI::clean` (not part of this file) leaves
a cleaned, empty ABI. -/
def ContractABI.clean (_abi : ContractABI) : ContractABI := { functions := [] }

/-- Modelled from the spec: the constructor-function field (`ABIFunctionField`,
not part of this file): the index it reports as selected and the parameter
values typed into it. -/
structure ABIFunctionField where
  selectedFunction : Int
  paramsValues : List String
deriving DecidableEq, Repr

/-- The index reported by `ABIFunctionField::getSelectedFunction` (`-1`: none). -/
def ABIFunctionField.getSelectedFunction (f : ABIFunctionField) : Int := f.selectedFunction

/-- The values reported by `ABIFunctionField::getParamsValues`. -/
def ABIFunctionField.getParamsValues (f : ABIFunctionField) : List String := f.paramsValues

/-- Modelled from the spec: the tab description of the form (`TabBarInfo`, not
part of this file): tab names by index, tab visibility by index, current tab. -/
structure TabBarInfo where
  m_mapName : List (Int × String)
  m_mapVisible : List (Int × Bool)
  m_current : Int
deriving DecidableEq, Repr

namespace TabBarInfo

/-- Modelled from the spec: a tab description without tabs. -/
def new : TabBarInfo := { m_mapName := [], m_mapVisible := [], m_current := 0 }

/-- Modelled from the spec: `addTab` registers a visible tab under an index. -/
def addTab (t : TabBarInfo) (index : Int) (name : String) : TabBarInfo :=
  { t with m_mapName := QMap.set t.m_mapName index name,
           m_mapVisible := QMap.set t.m_mapVisible index true }

/-- Modelled from the spec: `setTabVisible` shows or hides the tab of an index. -/
def setTabVisible (t : TabBarInfo) (index : Int) (visible : Bool) : TabBarInfo :=
  { t with m_mapVisible := QMap.set t.m_mapVisible index visible }

/-- Whether the tab of an index is visible. -/
def tabVisible (t : TabBarInfo) (index : Int) : Bool := QMap.value t.m_mapVisible index false

end TabBarInfo

/-- The wallet model, as far as the form reads it: the display unit of its options model. -/
structure WalletModel where
  displayUnit : Int
deriving DecidableEq, Repr

/-- The client model, as far as the form reads it: what `getGasInfo` reports
(three `uint64_t` values). -/
structure ClientModel where
  blockGasLimit : Nat
  minGasPrice : Nat
  nGasPrice : Nat
deriving DecidableEq, Repr

/-- The values written by `ClientModel::getGasInfo` into its three arguments. -/
def ClientModel.getGasInfo (c : ClientModel) : Nat × Nat × Nat :=
  (c.blockGasLimit, c.minGasPrice, c.nGasPrice)

/-- The name-value map handed to the RPC executor (`QMap<QString, QString>`). -/
abbrev Params := List (String × String)

/-- The command-line description given to `ExecRPCCommand` on construction. -/
structure ExecRPCCommand where
  command : String
  mandatory : List String
  optional : List String
  translations : List (String × String)
deriving DecidableEq, Repr

/-- What one call of `ExecRPCCommand::exec` yields: its return value and its
output arguments. -/
structure ExecOutcome where
  ok : Bool
  result : String
  resultJson : String
  errorMessage : String
deriving DecidableEq, Repr

/-- The kind of result shown by the result view (`ContractResult::ContractTxType`). -/
inductive ContractTxType
  | SendToResult
  | CreateResult
  | CallResult
deriving DecidableEq, Repr

/-- The arguments of the last `ContractResult::setResultData` call. -/
structure ResultData where
  result : String
  function : FunctionABI
  paramValues : List String
  type : ContractTxType
deriving DecidableEq, Repr

/-- What the handlers do to the outside, in the order it happens. -/
inductive Effect
  | question (title : String) (text : String)
  | exec (params : Params)
  | warning (title : String) (text : String)
deriving DecidableEq, Repr

/-- The parts of the program that are outside `createcontract.cpp`: the
constants of `validation.h`, and the behaviour of the ABI parser, the function
field, the RPC helper, the unit formatter and the address field. -/
structure Env where
  DEFAULT_GAS_PRICE : Int
  DEFAULT_GAS_LIMIT_OP_CREATE : Int
  MINIMUM_GAS_LIMIT : Int
  /-- Parser `ContractABI::loads`: the return value and the contents of the ABI object
  afterwards (after a failed parse these may be partial). -/
  loads : String → Bool × ContractABI
  /-- Setter `ABIFunctionField::setContractABI`: the field rebuilt for an ABI. -/
  setContractABI : ContractABI → ABIFunctionField
  /-- The function field as created by the constructor of the form. -/
  newABIFunctionField : ABIFunctionField
  /-- Helper `ExecRPCCommand::appendParam`. -/
  appendParam : Params → String → String → Params
  /-- Formatter `BitcoinUnits::format(unit, amount)`. -/
  format : Int → Int → String
  /-- Formatter `BitcoinUnits::formatWithUnit(unit, amount)`. -/
  formatWithUnit : Int → Int → String
  /-- Formatter `FormatMoney(amount)`. -/
  FormatMoney : Int → String
  /-- Slot `AddressField::on_refresh`. -/
  on_refresh : AddressField → AddressField

/-- The index expression `functions[func]` on the `std::vector` of ABI functions:
defined only for an index inside the vector. -/
def ContractABI.functionAt (abi : ContractABI) (func : Int) : Option FunctionABI :=
  if 0 ≤ func then abi.functions[func.toNat]? else none

/-! ## The constants of `CreateContract_NS` -/

namespace CreateContract_NS

def PRC_COMMAND : String := "createcontract"
def PARAM_BYTECODE : String := "bytecode"
def PARAM_GASLIMIT : String := "gaslimit"
def PARAM_GASPRICE : String := "gasprice"
def PARAM_SENDER : String := "sender"

/-- The constant `0.00000001*COIN`, a `double` product converted to `CAmount`. -/
def SINGLE_STEP : Int :=
  doubleToCAmount (doubleMul (toBinary64 1 100000000) (doubleOfCAmount COIN))

/-- The constant `0.001*COIN`, a `double` product converted to `CAmount`. -/
def HIGH_GASPRICE : Int :=
  doubleToCAmount (doubleMul (toBinary64 1 1000) (doubleOfCAmount COIN))

end CreateContract_NS

open CreateContract_NS

/-! ## The form -/

/-- The widgets of the form (`Ui::CreateContract`) that the class reads or writes. -/
structure Ui where
  labelBytecode : QLabel
  labelGasLimit : QLabel
  labelGasPrice : QLabel
  labelSenderAddress : QLabel
  /-- The plain text of the bytecode `QTextEdit`. -/
  textEditBytecode : String
  /-- The plain text of the interface (ABI) `QTextEdit`. -/
  textEditInterface : String
  lineEditGasLimit : QSpinBox
  lineEditGasPrice : BitcoinAmountField
  lineEditSenderAddress : AddressField
  /-- Whether the button "Create Contract" is enabled. -/
  pushButtonCreateContract : Bool
  stackedWidget : QStackedWidget
  /-- The data shown by the result view, if any was set. -/
  widgetResult : Option ResultData
deriving DecidableEq, Repr

namespace CreateContract

/-- The member variables of the class `CreateContract`. The objects the constructor
creates are values; the two models, which are handed in later, are `none` while
the pointer is null. -/
structure State where
  ui : Ui
  m_model : Option WalletModel
  m_clientModel : Option ClientModel
  m_execRPCCommand : ExecRPCCommand
  m_ABIFunctionField : ABIFunctionField
  m_contractABI : ContractABI
  m_tabInfo : TabBarInfo
deriving DecidableEq, Repr

/-- The slot `CreateContract::on_updateCreateButton`. -/
def on_updateCreateButton (s : State) : State :=
  let func := s.m_ABIFunctionField.getSelectedFunction
  let enabled : Bool := decide (func ≠ -1)
  let enabled : Bool := if s.ui.textEditBytecode.isEmpty then false else enabled
  let enabled : Bool := enabled && decide (s.ui.stackedWidget.currentIndex = 0)
  { s with ui := { s.ui with pushButtonCreateContract := enabled } }

/-- The slot `CreateContract::on_newContractABI`. -/
def on_newContractABI (env : Env) (s : State) : State :=
  let json_data := s.ui.textEditInterface
  let loaded := env.loads json_data
  let abi := if !loaded.1 then loaded.2.clean else loaded.2
  let s := { s with m_contractABI := abi, m_ABIFunctionField := env.setContractABI abi }
  on_updateCreateButton s

/-- A change of the bytecode text: `textChanged` is connected to
`on_updateCreateButton`. -/
def textEditBytecode_setPlainText (s : State) (text : String) : State :=
  on_updateCreateButton { s with ui := { s.ui with textEditBytecode := text } }

/-- A change of the interface text: `textChanged` is connected to `on_newContractABI`. -/
def textEditInterface_setPlainText (env : Env) (s : State) (text : String) : State :=
  on_newContractABI env { s with ui := { s.ui with textEditInterface := text } }

/-- The call `QStackedWidget::setCurrentIndex`: an index that is no page, or the page already
shown, changes nothing; otherwise `currentChanged` is emitted, which is
connected to `on_updateCreateButton`. -/
def stackedWidget_setCurrentIndex (s : State) (index : Int) : State :=
  if 0 ≤ index ∧ index < s.ui.stackedWidget.count ∧ index ≠ s.ui.stackedWidget.currentIndex then
    on_updateCreateButton
      { s with ui := { s.ui with stackedWidget := { s.ui.stackedWidget with currentIndex := index } } }
  else s

/-- The call `m_tabInfo->setTabVisible(index, visible)`. -/
def m_tabInfo_setTabVisible (s : State) (index : Int) (visible : Bool) : State :=
  { s with m_tabInfo := s.m_tabInfo.setTabVisible index visible }

/-- Modelled from the spec: `m_tabInfo->setCurrent(index)` makes the tab current and
shows the page of that index in the stacked widget the tabs describe. -/
def m_tabInfo_setCurrent (s : State) (index : Int) : State :=
  stackedWidget_setCurrentIndex { s with m_tabInfo := { s.m_tabInfo with m_current := index } } index

/-- The constructor `CreateContract::CreateContract`, run on the widgets as `setupUi`
made them. Style sheets and the three link labels are left out. -/
def CreateContract (env : Env) (ui : Ui) : State :=
  let m_ABIFunctionField := env.newABIFunctionField
  let ui := { ui with labelBytecode := { ui.labelBytecode with toolTip := tr "The bytecode of the contract" } }
  let ui := { ui with labelSenderAddress := { ui.labelSenderAddress with
    toolTip := tr "The quantum address that will be used to create the contract." } }
  let m_tabInfo := TabBarInfo.new
  let m_tabInfo := m_tabInfo.addTab 0 (tr "CreateContract")
  let m_tabInfo := m_tabInfo.addTab 1 (tr "Result")
  let m_tabInfo := m_tabInfo.setTabVisible 1 false
  -- Set defaults
  let ui := { ui with lineEditGasPrice := ui.lineEditGasPrice.setValue env.DEFAULT_GAS_PRICE }
  let ui := { ui with lineEditGasPrice := ui.lineEditGasPrice.setSingleStep SINGLE_STEP }
  let ui := { ui with lineEditGasLimit := ui.lineEditGasLimit.setMinimum env.MINIMUM_GAS_LIMIT }
  let ui := { ui with lineEditGasLimit := ui.lineEditGasLimit.setMaximum env.DEFAULT_GAS_LIMIT_OP_CREATE }
  let ui := { ui with lineEditGasLimit := ui.lineEditGasLimit.setValue env.DEFAULT_GAS_LIMIT_OP_CREATE }
  let ui := { ui with pushButtonCreateContract := false }
  -- Create new PRC command line interface
  let lstMandatory : List String := []
  let lstMandatory := lstMandatory ++ [PARAM_BYTECODE]
  let lstOptional : List String := []
  let lstOptional := lstOptional ++ [PARAM_GASLIMIT]
  let lstOptional := lstOptional ++ [PARAM_GASPRICE]
  let lstOptional := lstOptional ++ [PARAM_SENDER]
  let lstTranslations : List (String × String) := []
  let lstTranslations := QMap.set lstTranslations PARAM_BYTECODE ui.labelBytecode.text
  let lstTranslations := QMap.set lstTranslations PARAM_GASLIMIT ui.labelGasLimit.text
  let lstTranslations := QMap.set lstTranslations PARAM_GASPRICE ui.labelGasPrice.text
  let lstTranslations := QMap.set lstTranslations PARAM_SENDER ui.labelSenderAddress.text
  let m_execRPCCommand : ExecRPCCommand :=
    { command := PRC_COMMAND, mandatory := lstMandatory, optional := lstOptional,
      translations := lstTranslations }
  { ui := ui
    m_model := none
    m_clientModel := none
    m_execRPCCommand := m_execRPCCommand
    m_ABIFunctionField := m_ABIFunctionField
    m_contractABI := { functions := [] }
    m_tabInfo := m_tabInfo }

/-- The method `CreateContract::setModel`. -/
def setModel (s : State) (_model : Option WalletModel) : State :=
  { s with m_model := _model }

/-- The slot `CreateContract::on_numBlocksChanged`. The spin box takes an `int`, so
the `uint64_t` block gas limit is converted on the call of `setMaximum`. -/
def on_numBlocksChanged (env : Env) (s : State) : State :=
  match s.m_clientModel with
  | none => s
  | some clientModel =>
    let (blockGasLimit, minGasPrice, _nGasPrice) := clientModel.getGasInfo
    let ui := s.ui
    let ui := { ui with labelGasLimit := { ui.labelGasLimit with
      toolTip := QString.arg (QString.arg (tr "Gas limit. Default = %1, Max = %2") 1
        (toString env.DEFAULT_GAS_LIMIT_OP_CREATE)) 2 (toString blockGasLimit) } }
    let ui := { ui with labelGasPrice := { ui.labelGasPrice with
      toolTip := QString.arg (QString.arg
        (tr "Gas price: QTUM price per gas unit. Default = %1, Min = %2") 1
        (env.FormatMoney env.DEFAULT_GAS_PRICE)) 2 (env.FormatMoney minGasPrice) } }
    let ui := { ui with lineEditGasPrice := ui.lineEditGasPrice.setMinimum minGasPrice }
    let ui := { ui with lineEditGasLimit := ui.lineEditGasLimit.setMaximum (toInt32 blockGasLimit) }
    let ui := { ui with lineEditSenderAddress := env.on_refresh ui.lineEditSenderAddress }
    { s with ui := ui }

/-- The method `CreateContract::setClientModel`. -/
def setClientModel (env : Env) (s : State) (_clientModel : Option ClientModel) : State :=
  let s := { s with m_clientModel := _clientModel }
  if s.m_clientModel.isSome then on_numBlocksChanged env s else s

/-- The slot `CreateContract::on_clearAll_clicked`. `QTextEdit::clear` emits `textChanged`. -/
def on_clearAll_clicked (env : Env) (s : State) : State :=
  let s := textEditBytecode_setPlainText s ""
  let s := { s with ui := { s.ui with
    lineEditGasLimit := s.ui.lineEditGasLimit.setValue env.DEFAULT_GAS_LIMIT_OP_CREATE } }
  let s := { s with ui := { s.ui with
    lineEditGasPrice := s.ui.lineEditGasPrice.setValue env.DEFAULT_GAS_PRICE } }
  let s := { s with ui := { s.ui with
    lineEditSenderAddress := s.ui.lineEditSenderAddress.setCurrentIndex (-1) } }
  let s := textEditInterface_setPlainText env s ""
  let s := m_tabInfo_setTabVisible s 1 false
  m_tabInfo_setCurrent s 0

/-- The amount shown in the confirmation: `gasLimit * gasPrice` with `gasLimit` a
`uint64_t` and `gasPrice` a `CAmount`, formed in `uint64_t` and passed on as a `CAmount`. -/
def maxSpend (gasLimit gasPrice : Int) : Int :=
  toInt64 (toUInt64 (gasLimit * toUInt64 gasPrice))

/-- The text of the high-gas-price question. -/
def highGasPriceMessage (env : Env) (unit gasLimit gasPrice : Int) : String :=
  let message := tr "The Gas Price is too high, are you sure you want to possibly spend a max of %1 for this transaction?"
  QString.arg message 1 (env.formatWithUnit unit (maxSpend gasLimit gasPrice))

/-- The four `appendParam` calls of `on_createContract_clicked`, from the empty map. -/
def buildParams (env : Env) (s : State) (unit gasLimit gasPrice : Int) : Params :=
  let lstParams : Params := []
  let lstParams := env.appendParam lstParams PARAM_BYTECODE s.ui.textEditBytecode
  let lstParams := env.appendParam lstParams PARAM_GASLIMIT (toString gasLimit.toNat)
  let lstParams := env.appendParam lstParams PARAM_GASPRICE (env.format unit gasPrice)
  let lstParams := env.appendParam lstParams PARAM_SENDER s.ui.lineEditSenderAddress.currentText
  lstParams

/-- The slot `CreateContract::on_createContract_clicked`. The answer of the user is
read only if the question is asked; `exec` stands for `m_execRPCCommand->exec`.
The result is the state afterwards and what was done to the outside, in order;
`none` is undefined behaviour (a null `m_model`, an index outside `functions`). -/
def on_createContract_clicked (env : Env) (answer : StandardButton)
    (exec : Params → ExecOutcome) (s : State) : Option (State × List Effect) :=
  match s.m_model with
  | none => none
  | some model =>
    let unit := model.displayUnit
    let gasLimit := toUInt64 s.ui.lineEditGasLimit.value
    let gasPrice := s.ui.lineEditGasPrice.value
    let func := s.m_ABIFunctionField.getSelectedFunction
    -- Check for high gas price
    let asked : List Effect :=
      if gasPrice > HIGH_GASPRICE then
        [Effect.question (tr "High Gas price") (highGasPriceMessage env unit gasLimit gasPrice)]
      else []
    if gasPrice > HIGH_GASPRICE ∧ answer = StandardButton.No then
      some (s, asked)
    else
      -- Append params to the list
      let lstParams := buildParams env s unit gasLimit gasPrice
      -- Execute RPC command line
      let r := exec lstParams
      if r.ok then
        match s.m_contractABI.functionAt func with
        | none => none
        | some function =>
          let data : ResultData :=
            { result := r.result, function := function,
              paramValues := s.m_ABIFunctionField.getParamsValues,
              type := ContractTxType.CreateResult }
          let s := { s with ui := { s.ui with widgetResult := some data } }
          let s := m_tabInfo_setTabVisible s 1 true
          let s := m_tabInfo_setCurrent s 1
          some (s, asked ++ [Effect.exec lstParams])
      else
        some (s, asked ++ [Effect.exec lstParams, Effect.warning (tr "Create contract") r.errorMessage])

/-- The map `on_createContract_clicked` hands to the executor in a state whose
wallet model is `model`. -/
def createParams (env : Env) (s : State) (model : WalletModel) : Params :=
  buildParams env s model.displayUnit (toUInt64 s.ui.lineEditGasLimit.value) s.ui.lineEditGasPrice.value

/-- What can happen to the form after construction: the user edits a text,
switches the page, clicks a button, or the application sets a model or
reports a new block. -/
inductive Event
  | bytecodeChanged (text : String)
  | interfaceChanged (text : String)
  | currentChanged (index : Int)
  | clearAllClicked
  | createContractClicked (answer : StandardButton) (exec : Params → ExecOutcome)
  | setModel (model : Option WalletModel)
  | setClientModel (clientModel : Option ClientModel)
  | numBlocksChanged

/-- The state after an event; `none` where the handler has undefined behaviour. -/
def step (env : Env) (s : State) : Event → Option State
  | Event.bytecodeChanged text => some (textEditBytecode_setPlainText s text)
  | Event.interfaceChanged text => some (textEditInterface_setPlainText env s text)
  | Event.currentChanged index => some (stackedWidget_setCurrentIndex s index)
  | Event.clearAllClicked => some (on_clearAll_clicked env s)
  | Event.createContractClicked answer exec =>
      (on_createContract_clicked env answer exec s).map Prod.fst
  | Event.setModel model => some (setModel s model)
  | Event.setClientModel clientModel => some (setClientModel env s clientModel)
  | Event.numBlocksChanged => some (on_numBlocksChanged env s)

/-- The states the form can be in: the constructed one, and every state an
event leads to from such a state. -/
inductive Reachable (env : Env) (ui : Ui) : State → Prop
  | construct : Reachable env ui (CreateContract env ui)
  | event (s s' : State) (e : Event) : Reachable env ui s → step env s e = some s' →
      Reachable env ui s'

/-- The question effect of `on_createContract_clicked`: asked when the gas price is
above `HIGH_GASPRICE`. -/
def askedEffects (env : Env) (s : State) (model : WalletModel) : List Effect :=
  if s.ui.lineEditGasPrice.value > HIGH_GASPRICE then
    [Effect.question (tr "High Gas price")
      (highGasPriceMessage env model.displayUnit (toUInt64 s.ui.lineEditGasLimit.value)
        s.ui.lineEditGasPrice.value)]
  else []

/-- The name-value pairs in the words of the claim on the RPC parameters: bytecode,
gas limit, gas price, sender, in this order. -/
def specParamCalls (env : Env) (s : State) (model : WalletModel) : List (String × String) :=
  [("bytecode", s.ui.textEditBytecode),
   ("gaslimit", toString (toUInt64 s.ui.lineEditGasLimit.value).toNat),
   ("gasprice", env.format model.displayUnit s.ui.lineEditGasPrice.value),
   ("sender", s.ui.lineEditSenderAddress.currentText)]

/-- The invariant of the button: it is enabled only with bytecode entered, on page
`0`, and with a function selected. -/
def ButtonInvariant (s : State) : Prop :=
  s.ui.pushButtonCreateContract = true →
    s.ui.textEditBytecode ≠ "" ∧ s.ui.stackedWidget.currentIndex = 0 ∧
      s.m_ABIFunctionField.getSelectedFunction ≠ -1

end CreateContract

/-! ## An effect log -/

/-- Whether an effect is a call of the RPC executor. -/
def Effect.isExec : Effect → Bool
  | Effect.exec _ => true
  | _ => false

/-- Whether an effect is the confirmation question. -/
def Effect.isQuestion : Effect → Bool
  | Effect.question _ _ => true
  | _ => false

/-- Whether an effect is a warning dialog. -/
def Effect.isWarning : Effect → Bool
  | Effect.warning _ _ => true
  | _ => false

/-! ## A concrete environment and concrete states -/

/-- An environment with the values of the qtum tree for the constants and simple
stand-ins for the collaborators. -/
def sampleEnv : Env where
  DEFAULT_GAS_PRICE := 40
  DEFAULT_GAS_LIMIT_OP_CREATE := 2500000
  MINIMUM_GAS_LIMIT := 10000
  loads := fun text =>
    if text = "[constructor]" then (true, { functions := [{ name := "", type := "constructor" }] })
    else if text = "[]" then (true, { functions := [] })
    else (false, { functions := [{ name := "broken", type := "function" }] })
  setContractABI := fun abi =>
    { selectedFunction := if abi.functions.isEmpty then -1 else 0, paramsValues := [] }
  newABIFunctionField := { selectedFunction := -1, paramsValues := [] }
  appendParam := fun params name value => if value = "" then params else QMap.set params name value
  format := fun _ amount => toString amount
  formatWithUnit := fun _ amount => toString amount ++ " QTUM"
  FormatMoney := fun amount => toString amount
  on_refresh := fun a => a

/-- The widgets as a freshly set up form has them. -/
def sampleUi : Ui where
  labelBytecode := { text := "Bytecode", toolTip := "" }
  labelGasLimit := { text := "Gas Limit", toolTip := "" }
  labelGasPrice := { text := "Gas Price", toolTip := "" }
  labelSenderAddress := { text := "Sender Address", toolTip := "" }
  textEditBytecode := ""
  textEditInterface := ""
  lineEditGasLimit := { minimum := 0, maximum := 99, value := 0 }
  lineEditGasPrice := { value := 0, singleStep := 0, minimum := 0 }
  lineEditSenderAddress := { items := ["QSender1"], currentIndex := 0, currentText := "QSender1" }
  pushButtonCreateContract := true
  stackedWidget := { count := 2, currentIndex := 0 }
  widgetResult := none

/-- An executor that fails with a message. -/
def sampleExecFail : Params → ExecOutcome :=
  fun _ => { ok := false, result := "", resultJson := "", errorMessage := "Insufficient funds" }

/-- An executor that succeeds. -/
def sampleExecOk : Params → ExecOutcome :=
  fun _ => { ok := true, result := "txid", resultJson := "", errorMessage := "" }

/-- The form right after construction and `setModel`. -/
def sampleForm : CreateContract.State :=
  CreateContract.setModel (CreateContract.CreateContract sampleEnv sampleUi) (some { displayUnit := 0 })

/-- The sample form with a gas price of `200000` base units, above `HIGH_GASPRICE`. -/
def sampleFormHigh : CreateContract.State :=
  { sampleForm with ui := { sampleForm.ui with
      lineEditGasPrice := sampleForm.ui.lineEditGasPrice.setValue 200000 } }

/-- The sample form with a constructor ABI and bytecode entered. -/
def sampleFormReady : CreateContract.State :=
  CreateContract.textEditBytecode_setPlainText
    (CreateContract.textEditInterface_setPlainText sampleEnv sampleForm "[constructor]") "6060"

/-- The sample form after the node reported a block gas limit of `1000000`, below
the default gas limit of `2500000`. -/
def sampleFormLowLimit : CreateContract.State :=
  CreateContract.setClientModel sampleEnv sampleForm
    (some { blockGasLimit := 1000000, minGasPrice := 40, nGasPrice := 40 })

end Qtum

/-! ## Theorems -/

namespace Qtum

open CreateContract CreateContract_NS

/-! ### The button -/

/-- The button state computed by `on_updateCreateButton`, as a Boolean. -/
theorem on_updateCreateButton_button (s : State) :
    (on_updateCreateButton s).ui.pushButtonCreateContract =
      ((if s.ui.textEditBytecode.isEmpty then false
        else decide (s.m_ABIFunctionField.getSelectedFunction ≠ -1)) &&
        decide (s.ui.stackedWidget.currentIndex = 0)) := rfl

theorem on_updateCreateButton_button_iff (s : State) :
    (on_updateCreateButton s).ui.pushButtonCreateContract = true ↔
      (s.m_ABIFunctionField.getSelectedFunction ≠ -1 ∧ s.ui.textEditBytecode ≠ "" ∧
        s.ui.stackedWidget.currentIndex = 0) := by
  rw [on_updateCreateButton_button]
  by_cases hb : s.ui.textEditBytecode = ""
  · have : s.ui.textEditBytecode.isEmpty = true := (String.isEmpty_iff _).2 hb
    rw [this]
    simp [hb]
  · have : s.ui.textEditBytecode.isEmpty = false := by
      cases h : s.ui.textEditBytecode.isEmpty
      · rfl
      · exact absurd ((String.isEmpty_iff _).1 h) hb
    simp [this, hb]

theorem on_updateCreateButton_of_empty (s : State) (h : s.ui.textEditBytecode = "") :
    on_updateCreateButton s = { s with ui := { s.ui with pushButtonCreateContract := false } } := by
  have he : ("" : String).isEmpty = true := by decide
  unfold on_updateCreateButton
  rw [h, he]
  rfl

theorem on_updateCreateButton_invariant (s : State) : ButtonInvariant (on_updateCreateButton s) := by
  intro h
  have h' := (on_updateCreateButton_button_iff s).mp h
  exact ⟨h'.2.1, h'.2.2, h'.1⟩

/-! ### The constants -/

set_option maxRecDepth 100000 in
theorem HIGH_GASPRICE_eq : HIGH_GASPRICE = 100000 := by decide

set_option maxRecDepth 100000 in
theorem SINGLE_STEP_eq : SINGLE_STEP = 1 := by decide

/-! ### Maps, spin box, amount field, address field -/

theorem QMap.value_set {κ α : Type} [DecidableEq κ] (m : List (κ × α)) (k : κ) (v dflt : α) :
    QMap.value (QMap.set m k v) k dflt = v := by
  induction m with
  | nil => simp [QMap.set, QMap.value]
  | cons hd tl ih =>
    obtain ⟨k', v'⟩ := hd
    by_cases h : k' = k
    · simp [QMap.set, QMap.value, h]
    · simp [QMap.set, QMap.value, h, ih]

theorem QMap.set_set {κ α : Type} [DecidableEq κ] (m : List (κ × α)) (k : κ) (v : α) :
    QMap.set (QMap.set m k v) k v = QMap.set m k v := by
  induction m with
  | nil => simp [QMap.set]
  | cons hd tl ih =>
    obtain ⟨k', v'⟩ := hd
    by_cases h : k' = k
    · simp [QMap.set, h]
    · simp [QMap.set, h, ih]

theorem QSpinBox.setValue_minimum (b : QSpinBox) (v : Int) : (b.setValue v).minimum = b.minimum := rfl

theorem QSpinBox.setValue_maximum (b : QSpinBox) (v : Int) : (b.setValue v).maximum = b.maximum := rfl

theorem QSpinBox.setValue_value (b : QSpinBox) (v : Int) : (b.setValue v).value = b.bound v := rfl

theorem QSpinBox.bound_of_mem (b : QSpinBox) (v : Int) (h1 : b.minimum ≤ v) (h2 : v ≤ b.maximum) :
    b.bound v = v := by
  unfold QSpinBox.bound
  simp only
  split_ifs <;> omega

theorem QSpinBox.constructor_calls (b : QSpinBox) (m d : Int) (h : m ≤ d) :
    ((b.setMinimum m).setMaximum d).setValue d = { minimum := m, maximum := d, value := d } := by
  unfold QSpinBox.setValue QSpinBox.setMaximum QSpinBox.setMinimum QSpinBox.setRange QSpinBox.bound
  simp only [QSpinBox.mk.injEq]
  refine ⟨?_, ?_, ?_⟩ <;> split_ifs <;> omega

theorem QSpinBox.setValue_setValue (b : QSpinBox) (v : Int) :
    (b.setValue v).setValue v = b.setValue v := rfl

theorem BitcoinAmountField.setValue_twice (f : BitcoinAmountField) (v : Int) :
    (f.setValue v).setValue v = f.setValue v := rfl

theorem AddressField.setCurrentIndex_neg_one (a : AddressField) :
    a.setCurrentIndex (-1) = { a with currentIndex := -1, currentText := "" } := by
  unfold AddressField.setCurrentIndex
  simp

theorem AddressField.setCurrentIndex_neg_one_twice (a : AddressField) :
    (a.setCurrentIndex (-1)).setCurrentIndex (-1) = a.setCurrentIndex (-1) := by
  rw [AddressField.setCurrentIndex_neg_one, AddressField.setCurrentIndex_neg_one]

/-! ### The page of the stacked widget -/

theorem stackedWidget_setCurrentIndex_m_tabInfo (s : State) (i : Int) :
    (stackedWidget_setCurrentIndex s i).m_tabInfo = s.m_tabInfo := by
  unfold stackedWidget_setCurrentIndex
  split <;> rfl

theorem stackedWidget_setCurrentIndex_widgetResult (s : State) (i : Int) :
    (stackedWidget_setCurrentIndex s i).ui.widgetResult = s.ui.widgetResult := by
  unfold stackedWidget_setCurrentIndex
  split <;> rfl

theorem stackedWidget_setCurrentIndex_m_execRPCCommand (s : State) (i : Int) :
    (stackedWidget_setCurrentIndex s i).m_execRPCCommand = s.m_execRPCCommand := by
  unfold stackedWidget_setCurrentIndex
  split <;> rfl

theorem stackedWidget_setCurrentIndex_currentIndex (s : State) (i : Int)
    (h0 : 0 ≤ i) (h1 : i < s.ui.stackedWidget.count) :
    (stackedWidget_setCurrentIndex s i).ui.stackedWidget.currentIndex = i := by
  unfold stackedWidget_setCurrentIndex
  split
  · rfl
  · rename_i h
    by_contra hne
    exact h ⟨h0, h1, fun heq => hne heq.symm⟩

theorem stackedWidget_setCurrentIndex_invariant (s : State) (i : Int) (h : ButtonInvariant s) :
    ButtonInvariant (stackedWidget_setCurrentIndex s i) := by
  unfold stackedWidget_setCurrentIndex
  split
  · exact on_updateCreateButton_invariant _
  · exact h

/-! ### The create handler, case by case -/

theorem on_createContract_clicked_declined (env : Env) (exec : Params → ExecOutcome)
    (s : State) (model : WalletModel) (hm : s.m_model = some model)
    (hp : s.ui.lineEditGasPrice.value > HIGH_GASPRICE) :
    on_createContract_clicked env StandardButton.No exec s = some (s, askedEffects env s model) := by
  unfold on_createContract_clicked askedEffects
  simp [hm, hp]

theorem on_createContract_clicked_failed (env : Env) (answer : StandardButton)
    (exec : Params → ExecOutcome) (s : State) (model : WalletModel) (hm : s.m_model = some model)
    (hgo : ¬ (s.ui.lineEditGasPrice.value > HIGH_GASPRICE ∧ answer = StandardButton.No))
    (hok : (exec (createParams env s model)).ok = false) :
    on_createContract_clicked env answer exec s =
      some (s, askedEffects env s model ++
        [Effect.exec (createParams env s model),
         Effect.warning (tr "Create contract") (exec (createParams env s model)).errorMessage]) := by
  unfold on_createContract_clicked askedEffects
  unfold createParams at hok
  simp only [hm]
  rw [if_neg hgo]
  simp [hok, createParams]

theorem on_createContract_clicked_succeeded (env : Env) (answer : StandardButton)
    (exec : Params → ExecOutcome) (s : State) (model : WalletModel) (function : FunctionABI)
    (hm : s.m_model = some model)
    (hgo : ¬ (s.ui.lineEditGasPrice.value > HIGH_GASPRICE ∧ answer = StandardButton.No))
    (hok : (exec (createParams env s model)).ok = true)
    (hf : s.m_contractABI.functionAt s.m_ABIFunctionField.getSelectedFunction = some function) :
    on_createContract_clicked env answer exec s =
      some (m_tabInfo_setCurrent (m_tabInfo_setTabVisible
          { s with ui := { s.ui with
              widgetResult := some (ResultData.mk (exec (createParams env s model)).result
                function s.m_ABIFunctionField.getParamsValues ContractTxType.CreateResult) } }
          1 true) 1,
        askedEffects env s model ++ [Effect.exec (createParams env s model)]) := by
  unfold on_createContract_clicked askedEffects
  unfold createParams at hok
  simp only [hm]
  rw [if_neg hgo]
  simp [hok, hf, createParams]

theorem on_createContract_clicked_state_cases (env : Env) (answer : StandardButton)
    (exec : Params → ExecOutcome) (s s' : State) (effects : List Effect)
    (h : on_createContract_clicked env answer exec s = some (s', effects)) :
    s' = s ∨ ∃ data : ResultData,
      s' = m_tabInfo_setCurrent (m_tabInfo_setTabVisible
        { s with ui := { s.ui with widgetResult := some data } } 1 true) 1 := by
  unfold on_createContract_clicked at h
  split at h
  · exact absurd h (by simp)
  · dsimp only at h
    split at h
    · left
      simp only [Option.some.injEq, Prod.mk.injEq] at h
      exact h.1.symm
    · split at h
      · split at h
        · exact absurd h (by simp)
        · right
          simp only [Option.some.injEq, Prod.mk.injEq] at h
          exact ⟨_, h.1.symm⟩
      · left
        simp only [Option.some.injEq, Prod.mk.injEq] at h
        exact h.1.symm

theorem askedEffects_filter_isExec (env : Env) (s : State) (model : WalletModel) :
    (askedEffects env s model).filter Effect.isExec = [] := by
  unfold askedEffects
  split <;> simp [Effect.isExec]

theorem askedEffects_filter_isWarning (env : Env) (s : State) (model : WalletModel) :
    (askedEffects env s model).filter Effect.isWarning = [] := by
  unfold askedEffects
  split <;> simp [Effect.isWarning]

theorem askedEffects_filter_isQuestion (env : Env) (s : State) (model : WalletModel) :
    (askedEffects env s model).filter Effect.isQuestion = askedEffects env s model := by
  unfold askedEffects
  split <;> simp [Effect.isQuestion]

theorem askedEffects_length (env : Env) (s : State) (model : WalletModel) :
    (askedEffects env s model).length =
      if s.ui.lineEditGasPrice.value > HIGH_GASPRICE then 1 else 0 := by
  unfold askedEffects
  split <;> simp

/-! ### Clear-all in closed form -/

theorem on_clearAll_clicked_eq (env : Env) (s : State) :
    on_clearAll_clicked env s =
      { s with
        ui := { s.ui with
          textEditBytecode := ""
          textEditInterface := ""
          lineEditGasLimit := s.ui.lineEditGasLimit.setValue env.DEFAULT_GAS_LIMIT_OP_CREATE
          lineEditGasPrice := s.ui.lineEditGasPrice.setValue env.DEFAULT_GAS_PRICE
          lineEditSenderAddress := s.ui.lineEditSenderAddress.setCurrentIndex (-1)
          pushButtonCreateContract := false
          stackedWidget := { s.ui.stackedWidget with
            currentIndex := if (0 : Int) < s.ui.stackedWidget.count then 0
              else s.ui.stackedWidget.currentIndex } }
        m_contractABI := if !(env.loads "").1 then (env.loads "").2.clean else (env.loads "").2
        m_ABIFunctionField := env.setContractABI
          (if !(env.loads "").1 then (env.loads "").2.clean else (env.loads "").2)
        m_tabInfo := { s.m_tabInfo with
          m_mapVisible := QMap.set s.m_tabInfo.m_mapVisible 1 false
          m_current := 0 } } := by
  unfold on_clearAll_clicked m_tabInfo_setCurrent m_tabInfo_setTabVisible
    textEditInterface_setPlainText textEditBytecode_setPlainText on_newContractABI
    stackedWidget_setCurrentIndex TabBarInfo.setTabVisible
  simp only [on_updateCreateButton_of_empty]
  split
  · rename_i h
    rw [if_pos h.2.1]
  · rename_i h
    by_cases hc : (0 : Int) < s.ui.stackedWidget.count
    · have hz : s.ui.stackedWidget.currentIndex = 0 := by
        by_contra hne
        exact h ⟨le_refl 0, hc, fun e => hne e.symm⟩
      rw [if_pos hc, ← hz]
    · rw [if_neg hc]

theorem on_clearAll_clicked_button (env : Env) (s : State) :
    (on_clearAll_clicked env s).ui.pushButtonCreateContract = false := by
  rw [on_clearAll_clicked_eq]

/-! ### What every event preserves -/

theorem on_createContract_clicked_invariant (env : Env) (answer : StandardButton)
    (exec : Params → ExecOutcome) (s s' : State) (effects : List Effect)
    (h : on_createContract_clicked env answer exec s = some (s', effects))
    (hs : ButtonInvariant s) : ButtonInvariant s' := by
  rcases on_createContract_clicked_state_cases env answer exec s s' effects h with h1 | ⟨data, h1⟩
  · rw [h1]
    exact hs
  · rw [h1]
    unfold m_tabInfo_setCurrent
    apply stackedWidget_setCurrentIndex_invariant
    exact hs

theorem on_numBlocksChanged_invariant (env : Env) (s : State) (hs : ButtonInvariant s) :
    ButtonInvariant (on_numBlocksChanged env s) := by
  unfold on_numBlocksChanged
  split
  · exact hs
  · exact hs

theorem step_invariant (env : Env) (s s' : State) (e : Event) (h : step env s e = some s')
    (hs : ButtonInvariant s) : ButtonInvariant s' := by
  cases e with
  | bytecodeChanged text =>
    simp only [step, Option.some.injEq] at h
    rw [← h]
    exact on_updateCreateButton_invariant _
  | interfaceChanged text =>
    simp only [step, Option.some.injEq] at h
    rw [← h]
    exact on_updateCreateButton_invariant _
  | currentChanged index =>
    simp only [step, Option.some.injEq] at h
    rw [← h]
    exact stackedWidget_setCurrentIndex_invariant s index hs
  | clearAllClicked =>
    simp only [step, Option.some.injEq] at h
    rw [← h]
    intro hb
    rw [on_clearAll_clicked_button] at hb
    exact absurd hb (by simp)
  | createContractClicked answer exec =>
    simp only [step, Option.map_eq_some', Prod.exists, exists_and_right, exists_eq_right] at h
    obtain ⟨effects, h⟩ := h
    exact on_createContract_clicked_invariant env answer exec s s' effects h hs
  | setModel model =>
    simp only [step, Option.some.injEq] at h
    rw [← h]
    exact hs
  | setClientModel clientModel =>
    simp only [step, Option.some.injEq] at h
    rw [← h]
    unfold setClientModel
    simp only
    split
    · exact on_numBlocksChanged_invariant env _ hs
    · exact hs
  | numBlocksChanged =>
    simp only [step, Option.some.injEq] at h
    rw [← h]
    exact on_numBlocksChanged_invariant env s hs

theorem reachable_invariant (env : Env) (ui : Ui) (s : State) (h : Reachable env ui s) :
    ButtonInvariant s := by
  induction h with
  | construct =>
    intro hb
    exact absurd hb (by simp [CreateContract])
  | event s s' e _ hstep ih => exact step_invariant env s s' e hstep ih

theorem step_m_execRPCCommand (env : Env) (s s' : State) (e : Event)
    (h : step env s e = some s') : s'.m_execRPCCommand = s.m_execRPCCommand := by
  cases e with
  | bytecodeChanged text =>
    simp only [step, Option.some.injEq] at h
    rw [← h]
    rfl
  | interfaceChanged text =>
    simp only [step, Option.some.injEq] at h
    rw [← h]
    rfl
  | currentChanged index =>
    simp only [step, Option.some.injEq] at h
    rw [← h]
    exact stackedWidget_setCurrentIndex_m_execRPCCommand s index
  | clearAllClicked =>
    simp only [step, Option.some.injEq] at h
    rw [← h, on_clearAll_clicked_eq]
  | createContractClicked answer exec =>
    simp only [step, Option.map_eq_some', Prod.exists, exists_and_right, exists_eq_right] at h
    obtain ⟨effects, h⟩ := h
    rcases on_createContract_clicked_state_cases env answer exec s s' effects h with h1 | ⟨data, h1⟩
    · rw [h1]
    · rw [h1]
      unfold m_tabInfo_setCurrent
      rw [stackedWidget_setCurrentIndex_m_execRPCCommand]
      rfl
  | setModel model =>
    simp only [step, Option.some.injEq] at h
    rw [← h]
    rfl
  | setClientModel clientModel =>
    simp only [step, Option.some.injEq] at h
    rw [← h]
    unfold setClientModel on_numBlocksChanged
    simp only
    split
    · split <;> rfl
    · rfl
  | numBlocksChanged =>
    simp only [step, Option.some.injEq] at h
    rw [← h]
    unfold on_numBlocksChanged
    split <;> rfl

theorem reachable_m_execRPCCommand (env : Env) (ui : Ui) (s : State) (h : Reachable env ui s) :
    s.m_execRPCCommand = (CreateContract env ui).m_execRPCCommand := by
  induction h with
  | construct => rfl
  | event s s' e _ hstep ih => rw [step_m_execRPCCommand env s s' e hstep, ih]

/-! ### Arithmetic of the confirmation amount -/

theorem toUInt64_mul_toUInt64 (a b : Int) : toUInt64 (a * toUInt64 b) = (a * b) % 2 ^ 64 := by
  unfold toUInt64
  rw [Int.mul_emod a (b % 2 ^ 64), Int.emod_emod, ← Int.mul_emod]

theorem toInt64_of_small (p : Int) (h0 : 0 ≤ p) (h1 : p < 2 ^ 63) : toInt64 (p % 2 ^ 64) = p := by
  unfold toInt64
  omega

/-! ### C1: the button rule -/

/-- C1: after `on_updateCreateButton` the button "Create Contract" is enabled if and
only if the selected function index is not `-1`, the bytecode text is not empty
and the current page index is `0`; two states that agree on these three get the
same button state. -/
theorem on_updateCreateButton_enabled_iff (s : State) :
    ((on_updateCreateButton s).ui.pushButtonCreateContract = true ↔
      (s.m_ABIFunctionField.getSelectedFunction ≠ -1 ∧ s.ui.textEditBytecode ≠ "" ∧
        s.ui.stackedWidget.currentIndex = 0)) ∧
    (∀ t : State,
      t.m_ABIFunctionField.getSelectedFunction = s.m_ABIFunctionField.getSelectedFunction →
      t.ui.textEditBytecode = s.ui.textEditBytecode →
      t.ui.stackedWidget.currentIndex = s.ui.stackedWidget.currentIndex →
      (on_updateCreateButton t).ui.pushButtonCreateContract =
        (on_updateCreateButton s).ui.pushButtonCreateContract) := by
  refine ⟨on_updateCreateButton_button_iff s, ?_⟩
  intro t h1 h2 h3
  rw [on_updateCreateButton_button, on_updateCreateButton_button, h1, h2, h3]

/-! ### C2: the confirmation question -/

/-- C2: with a wallet model set (and, where the executor succeeds, `func` inside the
ABI, so that the handler has defined behaviour), `on_createContract_clicked`
returns; the question is asked exactly when the gas price is strictly above
`HIGH_GASPRICE = 100000`; the executor is called exactly once if the gas price is at
most `HIGH_GASPRICE` or the answer is not `No`, and not at all otherwise; on the
answer `No` to the question the state is returned unchanged, only the question
having happened. -/
theorem on_createContract_clicked_confirmation (env : Env) (answer : StandardButton)
    (exec : Params → ExecOutcome) (s : State) (model : WalletModel)
    (hm : s.m_model = some model)
    (hf : ¬ (s.ui.lineEditGasPrice.value > HIGH_GASPRICE ∧ answer = StandardButton.No) →
      (exec (createParams env s model)).ok = true →
      (s.m_contractABI.functionAt s.m_ABIFunctionField.getSelectedFunction).isSome = true) :
    HIGH_GASPRICE = 100000 ∧
    ∃ s' effects, on_createContract_clicked env answer exec s = some (s', effects) ∧
      ((effects.filter Effect.isQuestion).length =
        if s.ui.lineEditGasPrice.value > HIGH_GASPRICE then 1 else 0) ∧
      ((effects.filter Effect.isExec).length =
        if s.ui.lineEditGasPrice.value ≤ HIGH_GASPRICE ∨ answer ≠ StandardButton.No then 1 else 0) ∧
      (s.ui.lineEditGasPrice.value > HIGH_GASPRICE → answer = StandardButton.No →
        s' = s ∧ effects = askedEffects env s model) := by
  refine ⟨HIGH_GASPRICE_eq, ?_⟩
  by_cases hd : s.ui.lineEditGasPrice.value > HIGH_GASPRICE ∧ answer = StandardButton.No
  · obtain ⟨hp, ha⟩ := hd
    subst ha
    refine ⟨s, askedEffects env s model,
      on_createContract_clicked_declined env exec s model hm hp, ?_, ?_, ?_⟩
    · rw [askedEffects_filter_isQuestion, askedEffects_length]
    · rw [askedEffects_filter_isExec]
      have : ¬ (s.ui.lineEditGasPrice.value ≤ HIGH_GASPRICE ∨
          StandardButton.No ≠ StandardButton.No) := by
        intro h
        rcases h with h | h
        · exact absurd hp (not_lt.mpr h)
        · exact h rfl
      rw [if_neg this]
      rfl
    · intro _ _
      exact ⟨rfl, rfl⟩
  · have hcond : s.ui.lineEditGasPrice.value ≤ HIGH_GASPRICE ∨ answer ≠ StandardButton.No := by
      by_cases hp : s.ui.lineEditGasPrice.value > HIGH_GASPRICE
      · right
        intro ha
        exact hd ⟨hp, ha⟩
      · left
        exact not_lt.mp hp
    cases hok : (exec (createParams env s model)).ok
    · refine ⟨_, _, on_createContract_clicked_failed env answer exec s model hm hd hok, ?_, ?_, ?_⟩
      · rw [List.filter_append, askedEffects_filter_isQuestion, ← askedEffects_length env s model]
        simp [Effect.isQuestion]
      · rw [List.filter_append, askedEffects_filter_isExec]
        simp [Effect.isExec, hcond]
      · intro hp ha
        exact absurd ⟨hp, ha⟩ hd
    · obtain ⟨function, hfun⟩ := Option.isSome_iff_exists.mp (hf hd hok)
      refine ⟨_, _, on_createContract_clicked_succeeded env answer exec s model function hm hd hok hfun,
        ?_, ?_, ?_⟩
      · rw [List.filter_append, askedEffects_filter_isQuestion, ← askedEffects_length env s model]
        simp [Effect.isQuestion]
      · rw [List.filter_append, askedEffects_filter_isExec]
        simp [Effect.isExec, hcond]
      · intro hp ha
        exact absurd ⟨hp, ha⟩ hd

theorem on_createContract_clicked_confirmation_witness :
    sampleFormHigh.m_model = some { displayUnit := 0 } ∧
    sampleFormHigh.ui.lineEditGasPrice.value > HIGH_GASPRICE ∧
    ∃ s' effects,
      on_createContract_clicked sampleEnv StandardButton.No sampleExecOk sampleFormHigh =
        some (s', effects) ∧
      (effects.filter Effect.isQuestion).length = 1 ∧
      (effects.filter Effect.isExec).length = 0 ∧ s' = sampleFormHigh := by
  have hp : sampleFormHigh.ui.lineEditGasPrice.value > HIGH_GASPRICE := by
    rw [HIGH_GASPRICE_eq]
    decide
  obtain ⟨_, s', effects, h, hq, he, hno⟩ :=
    on_createContract_clicked_confirmation sampleEnv StandardButton.No sampleExecOk
      sampleFormHigh { displayUnit := 0 } rfl (fun h => absurd ⟨hp, rfl⟩ h)
  refine ⟨rfl, hp, s', effects, h, ?_, ?_, (hno hp rfl).1⟩
  · rw [hq, if_pos hp]
  · have hnot : ¬ (sampleFormHigh.ui.lineEditGasPrice.value ≤ HIGH_GASPRICE ∨
        StandardButton.No ≠ StandardButton.No) := by
      rw [HIGH_GASPRICE_eq]
      decide
    rw [he, if_neg hnot]

/-! ### C3: the RPC parameters -/

/-- C3: the map handed to the executor is built from the empty map by four
`appendParam` calls, in the order bytecode, gas limit (decimal rendering of the
value read into the `uint64_t`), gas price (`BitcoinUnits::format(unit, gasPrice)`),
sender (current text); whenever the handler goes on to the RPC call, the
executor is called on that map and on no other; the four names are the ones the
constructor registers (bytecode mandatory; gaslimit, gasprice, sender optional),
and the registration is the same in every reachable state. -/
theorem on_createContract_clicked_params (env : Env) (answer : StandardButton)
    (exec : Params → ExecOutcome) (s : State) (model : WalletModel)
    (hm : s.m_model = some model)
    (hgo : ¬ (s.ui.lineEditGasPrice.value > HIGH_GASPRICE ∧ answer = StandardButton.No))
    (hf : (exec (createParams env s model)).ok = true →
      (s.m_contractABI.functionAt s.m_ABIFunctionField.getSelectedFunction).isSome = true) :
    createParams env s model =
      (specParamCalls env s model).foldl (fun m nv => env.appendParam m nv.1 nv.2) [] ∧
    (0 ≤ s.ui.lineEditGasLimit.value → s.ui.lineEditGasLimit.value < 2 ^ 64 →
      toString (toUInt64 s.ui.lineEditGasLimit.value).toNat = toString s.ui.lineEditGasLimit.value) ∧
    (∃ s' effects, on_createContract_clicked env answer exec s = some (s', effects) ∧
      effects.filter Effect.isExec = [Effect.exec (createParams env s model)]) ∧
    (∀ exec2 : Params → ExecOutcome, exec2 (createParams env s model) = exec (createParams env s model) →
      on_createContract_clicked env answer exec2 s = on_createContract_clicked env answer exec s) ∧
    (∀ ui : Ui,
      (CreateContract env ui).m_execRPCCommand.command = "createcontract" ∧
      (CreateContract env ui).m_execRPCCommand.mandatory = ["bytecode"] ∧
      (CreateContract env ui).m_execRPCCommand.optional = ["gaslimit", "gasprice", "sender"] ∧
      (specParamCalls env s model).map Prod.fst =
        (CreateContract env ui).m_execRPCCommand.mandatory ++
          (CreateContract env ui).m_execRPCCommand.optional ∧
      (Reachable env ui s →
        (specParamCalls env s model).map Prod.fst =
          s.m_execRPCCommand.mandatory ++ s.m_execRPCCommand.optional)) := by
  refine ⟨rfl, ?_, ?_, ?_, ?_⟩
  · intro h0 h1
    have hu : toUInt64 s.ui.lineEditGasLimit.value = s.ui.lineEditGasLimit.value := by
      unfold toUInt64
      exact Int.emod_eq_of_lt h0 h1
    rw [hu]
    obtain ⟨n, hn⟩ := Int.eq_ofNat_of_zero_le h0
    rw [hn]
    rfl
  · cases hok : (exec (createParams env s model)).ok
    · refine ⟨_, _, on_createContract_clicked_failed env answer exec s model hm hgo hok, ?_⟩
      rw [List.filter_append, askedEffects_filter_isExec]
      simp [Effect.isExec]
    · obtain ⟨function, hfun⟩ := Option.isSome_iff_exists.mp (hf hok)
      refine ⟨_, _, on_createContract_clicked_succeeded env answer exec s model function hm hgo hok hfun, ?_⟩
      rw [List.filter_append, askedEffects_filter_isExec]
      simp [Effect.isExec]
  · intro exec2 h
    unfold createParams at h
    unfold on_createContract_clicked
    simp only [hm, h]
  · intro ui
    refine ⟨rfl, rfl, rfl, rfl, ?_⟩
    intro hr
    rw [reachable_m_execRPCCommand env ui s hr]
    rfl

theorem on_createContract_clicked_params_witness :
    sampleFormReady.m_model = some { displayUnit := 0 } ∧
    ¬ (sampleFormReady.ui.lineEditGasPrice.value > HIGH_GASPRICE ∧
        StandardButton.Yes = StandardButton.No) ∧
    createParams sampleEnv sampleFormReady { displayUnit := 0 } =
      [("bytecode", "6060"), ("gaslimit", "2500000"), ("gasprice", "40"), ("sender", "QSender1")] := by
  have hgo : ¬ (sampleFormReady.ui.lineEditGasPrice.value > HIGH_GASPRICE ∧
      StandardButton.Yes = StandardButton.No) := fun h => absurd h.2 (by decide)
  have h := on_createContract_clicked_params sampleEnv StandardButton.Yes sampleExecOk
    sampleFormReady { displayUnit := 0 } rfl hgo (fun _ => by decide)
  refine ⟨rfl, hgo, ?_⟩
  rw [h.1]
  decide

/-! ### C4: the outcome of the RPC call -/

/-- C4: when the handler reaches the executor (wallet model set, question not
answered `No`): if `exec` returns true and `func` indexes a function of the ABI,
the result view holds the result with that function, the parameter values and
the kind `CreateResult`, tab 1 is visible and current (and its page is shown
when the stacked widget has it), and no warning is shown; if `exec` returns
false, one warning with exactly the error message of the executor is shown and
the state, with result view, tab visibility and current tab, is unchanged. -/
theorem on_createContract_clicked_outcome (env : Env) (answer : StandardButton)
    (exec : Params → ExecOutcome) (s : State) (model : WalletModel)
    (hm : s.m_model = some model)
    (hgo : ¬ (s.ui.lineEditGasPrice.value > HIGH_GASPRICE ∧ answer = StandardButton.No)) :
    ((exec (createParams env s model)).ok = true → ∀ function : FunctionABI,
      s.m_contractABI.functionAt s.m_ABIFunctionField.getSelectedFunction = some function →
      ∃ s' effects, on_createContract_clicked env answer exec s = some (s', effects) ∧
        s'.ui.widgetResult = some
          { result := (exec (createParams env s model)).result, function := function,
            paramValues := s.m_ABIFunctionField.getParamsValues,
            type := ContractTxType.CreateResult } ∧
        s'.m_tabInfo.tabVisible 1 = true ∧ s'.m_tabInfo.m_current = 1 ∧
        (1 < s.ui.stackedWidget.count → s'.ui.stackedWidget.currentIndex = 1) ∧
        effects.filter Effect.isWarning = []) ∧
    ((exec (createParams env s model)).ok = false →
      ∃ effects, on_createContract_clicked env answer exec s = some (s, effects) ∧
        effects.filter Effect.isWarning =
          [Effect.warning "Create contract" (exec (createParams env s model)).errorMessage]) := by
  constructor
  · intro hok function hfun
    refine ⟨_, _, on_createContract_clicked_succeeded env answer exec s model function hm hgo hok hfun,
      ?_, ?_, ?_, ?_, ?_⟩
    · unfold m_tabInfo_setCurrent
      rw [stackedWidget_setCurrentIndex_widgetResult]
      rfl
    · unfold m_tabInfo_setCurrent
      rw [stackedWidget_setCurrentIndex_m_tabInfo]
      exact QMap.value_set _ _ _ _
    · unfold m_tabInfo_setCurrent
      rw [stackedWidget_setCurrentIndex_m_tabInfo]
    · intro hc
      unfold m_tabInfo_setCurrent
      apply stackedWidget_setCurrentIndex_currentIndex
      · decide
      · exact_mod_cast hc
    · rw [List.filter_append, askedEffects_filter_isWarning]
      simp [Effect.isWarning]
  · intro hok
    refine ⟨_, on_createContract_clicked_failed env answer exec s model hm hgo hok, ?_⟩
    rw [List.filter_append, askedEffects_filter_isWarning]
    simp [Effect.isWarning, tr]

theorem on_createContract_clicked_outcome_witness :
    sampleFormReady.m_model = some { displayUnit := 0 } ∧
    ¬ (sampleFormReady.ui.lineEditGasPrice.value > HIGH_GASPRICE ∧
        StandardButton.Yes = StandardButton.No) ∧
    ∃ s' effects,
      on_createContract_clicked sampleEnv StandardButton.Yes sampleExecOk sampleFormReady =
        some (s', effects) ∧
      s'.ui.widgetResult = some
        { result := "txid", function := { name := "", type := "constructor" },
          paramValues := [], type := ContractTxType.CreateResult } ∧
      s'.m_tabInfo.tabVisible 1 = true ∧ s'.m_tabInfo.m_current = 1 := by
  have hgo : ¬ (sampleFormReady.ui.lineEditGasPrice.value > HIGH_GASPRICE ∧
      StandardButton.Yes = StandardButton.No) := fun h => absurd h.2 (by decide)
  obtain ⟨s', effects, h, hr, hv, hc, _, _⟩ :=
    (on_createContract_clicked_outcome sampleEnv StandardButton.Yes sampleExecOk
      sampleFormReady { displayUnit := 0 } rfl hgo).1 rfl
      { name := "", type := "constructor" } (by decide)
  exact ⟨rfl, hgo, s', effects, h, hr, hv, hc⟩

/-! ### C5: the state after construction -/

/-- C5: right after construction (for constants with `MINIMUM_GAS_LIMIT` at most
`DEFAULT_GAS_LIMIT_OP_CREATE`) the gas price is `DEFAULT_GAS_PRICE` with single step
`SINGLE_STEP`, which is one base unit; the gas limit is `DEFAULT_GAS_LIMIT_OP_CREATE`
with minimum `MINIMUM_GAS_LIMIT` and maximum `DEFAULT_GAS_LIMIT_OP_CREATE`; the button
"Create Contract" is disabled; the tabs are exactly 0 "CreateContract" and
1 "Result", the first visible and the Result tab hidden. -/
theorem CreateContract_defaults (env : Env) (ui : Ui)
    (hmin : env.MINIMUM_GAS_LIMIT ≤ env.DEFAULT_GAS_LIMIT_OP_CREATE) :
    (CreateContract env ui).ui.lineEditGasPrice.value = env.DEFAULT_GAS_PRICE ∧
    (CreateContract env ui).ui.lineEditGasPrice.singleStep = SINGLE_STEP ∧
    SINGLE_STEP = 1 ∧
    (CreateContract env ui).ui.lineEditGasLimit.value = env.DEFAULT_GAS_LIMIT_OP_CREATE ∧
    (CreateContract env ui).ui.lineEditGasLimit.minimum = env.MINIMUM_GAS_LIMIT ∧
    (CreateContract env ui).ui.lineEditGasLimit.maximum = env.DEFAULT_GAS_LIMIT_OP_CREATE ∧
    (CreateContract env ui).ui.pushButtonCreateContract = false ∧
    (CreateContract env ui).m_tabInfo.m_mapName = [(0, "CreateContract"), (1, "Result")] ∧
    (CreateContract env ui).m_tabInfo.tabVisible 0 = true ∧
    (CreateContract env ui).m_tabInfo.tabVisible 1 = false := by
  have hbox : (CreateContract env ui).ui.lineEditGasLimit =
      ((ui.lineEditGasLimit.setMinimum env.MINIMUM_GAS_LIMIT).setMaximum
        env.DEFAULT_GAS_LIMIT_OP_CREATE).setValue env.DEFAULT_GAS_LIMIT_OP_CREATE := rfl
  rw [hbox, QSpinBox.constructor_calls _ _ _ hmin]
  exact ⟨rfl, rfl, SINGLE_STEP_eq, rfl, rfl, rfl, rfl, rfl, rfl, rfl⟩

theorem CreateContract_defaults_witness :
    sampleEnv.MINIMUM_GAS_LIMIT ≤ sampleEnv.DEFAULT_GAS_LIMIT_OP_CREATE ∧
    (CreateContract sampleEnv sampleUi).ui.lineEditGasLimit =
      { minimum := 10000, maximum := 2500000, value := 2500000 } ∧
    (CreateContract sampleEnv sampleUi).ui.lineEditGasPrice.value = 40 := by
  have h := CreateContract_defaults sampleEnv sampleUi (by decide)
  refine ⟨by decide, ?_, h.1⟩
  decide

/-! ### C6: clear-all -/

/-- C6, as stated, fails: after the node reported a block gas limit of `1000000`,
`on_clearAll_clicked` leaves the gas limit at `1000000`, not at
`DEFAULT_GAS_LIMIT_OP_CREATE = 2500000`. -/
theorem on_clearAll_clicked_gasLimit_not_default :
    (on_clearAll_clicked sampleEnv sampleFormLowLimit).ui.lineEditGasLimit.value = 1000000 ∧
    (on_clearAll_clicked sampleEnv sampleFormLowLimit).ui.lineEditGasLimit.value ≠
      sampleEnv.DEFAULT_GAS_LIMIT_OP_CREATE := by
  decide

/-- C6, amended: after `on_clearAll_clicked` the bytecode text is empty, the gas limit
is `DEFAULT_GAS_LIMIT_OP_CREATE` forced into the range of the gas-limit field (so it
is `DEFAULT_GAS_LIMIT_OP_CREATE` whenever that lies between the minimum and the
maximum of the field), the gas price is `DEFAULT_GAS_PRICE`, the sender selection
index is `-1`, the interface text is empty, the Result tab is hidden and the
current tab is `0`; applying the handler twice gives the same state as once. -/
theorem on_clearAll_clicked_state (env : Env) (s : State) :
    (on_clearAll_clicked env s).ui.textEditBytecode = "" ∧
    (on_clearAll_clicked env s).ui.lineEditGasLimit.value =
      s.ui.lineEditGasLimit.bound env.DEFAULT_GAS_LIMIT_OP_CREATE ∧
    (s.ui.lineEditGasLimit.minimum ≤ env.DEFAULT_GAS_LIMIT_OP_CREATE →
      env.DEFAULT_GAS_LIMIT_OP_CREATE ≤ s.ui.lineEditGasLimit.maximum →
      (on_clearAll_clicked env s).ui.lineEditGasLimit.value = env.DEFAULT_GAS_LIMIT_OP_CREATE) ∧
    (on_clearAll_clicked env s).ui.lineEditGasPrice.value = env.DEFAULT_GAS_PRICE ∧
    (on_clearAll_clicked env s).ui.lineEditSenderAddress.currentIndex = -1 ∧
    (on_clearAll_clicked env s).ui.textEditInterface = "" ∧
    (on_clearAll_clicked env s).m_tabInfo.tabVisible 1 = false ∧
    (on_clearAll_clicked env s).m_tabInfo.m_current = 0 ∧
    on_clearAll_clicked env (on_clearAll_clicked env s) = on_clearAll_clicked env s := by
  refine ⟨?_, ?_, ?_, ?_, ?_, ?_, ?_, ?_, ?_⟩
  · rw [on_clearAll_clicked_eq]
  · rw [on_clearAll_clicked_eq]
    rfl
  · intro h1 h2
    rw [on_clearAll_clicked_eq]
    exact QSpinBox.bound_of_mem _ _ h1 h2
  · rw [on_clearAll_clicked_eq]
    rfl
  · rw [on_clearAll_clicked_eq]
    rfl
  · rw [on_clearAll_clicked_eq]
  · rw [on_clearAll_clicked_eq]
    exact QMap.value_set _ _ _ _
  · rw [on_clearAll_clicked_eq]
  · rw [on_clearAll_clicked_eq env (on_clearAll_clicked env s), on_clearAll_clicked_eq env s]
    simp only [QMap.set_set, QSpinBox.setValue_setValue, BitcoinAmountField.setValue_twice,
      AddressField.setCurrentIndex_neg_one_twice]
    by_cases hc : (0 : Int) < s.ui.stackedWidget.count
    · simp only [if_pos hc]
    · simp only [if_neg hc]

/-! ### C7: new blocks -/

/-- C8: in every state reachable from construction through the events of the form
(text changes, page changes, clear-all, create-click, and the setting of the
models), an enabled button "Create Contract" implies non-empty bytecode, page
index `0` and a selected function index other than `-1`; so the button is not
enabled while page `1` (Result) is shown, it is disabled right after clear-all
(which is again a reachable state), and the index `func` read by a create that
the enabled button triggers is not `-1`. -/
theorem reachable_button_enabled (env : Env) (ui : Ui) (s : State) (h : Reachable env ui s) :
    (s.ui.pushButtonCreateContract = true →
      s.ui.textEditBytecode ≠ "" ∧ s.ui.stackedWidget.currentIndex = 0 ∧
        s.m_ABIFunctionField.getSelectedFunction ≠ -1) ∧
    (s.ui.stackedWidget.currentIndex = 1 → s.ui.pushButtonCreateContract = false) ∧
    (Reachable env ui (on_clearAll_clicked env s) ∧
      (on_clearAll_clicked env s).ui.pushButtonCreateContract = false) ∧
    (s.ui.pushButtonCreateContract = true →
      ∀ (answer : StandardButton) (exec : Params → ExecOutcome) (s' : State) (effects : List Effect),
        on_createContract_clicked env answer exec s = some (s', effects) →
        s.m_ABIFunctionField.getSelectedFunction ≠ -1 ∧ ButtonInvariant s') := by
  have hinv := reachable_invariant env ui s h
  refine ⟨hinv, ?_, ⟨?_, on_clearAll_clicked_button env s⟩, ?_⟩
  · intro hpage
    cases hb : s.ui.pushButtonCreateContract
    · rfl
    · have := (hinv hb).2.1
      rw [hpage] at this
      exact absurd this (by decide)
  · exact Reachable.event s _ Event.clearAllClicked h rfl
  · intro hb answer exec s' effects hrun
    exact ⟨(hinv hb).2.2, on_createContract_clicked_invariant env answer exec s s' effects hrun hinv⟩

theorem reachable_button_enabled_witness :
    Reachable sampleEnv sampleUi sampleFormReady ∧
    sampleFormReady.ui.pushButtonCreateContract = true ∧
    sampleFormReady.ui.textEditBytecode ≠ "" ∧ sampleFormReady.ui.stackedWidget.currentIndex = 0 ∧
    sampleFormReady.m_ABIFunctionField.getSelectedFunction ≠ -1 := by
  have hr : Reachable sampleEnv sampleUi sampleFormReady :=
    Reachable.event _ _ (Event.bytecodeChanged "6060")
      (Reachable.event _ _ (Event.interfaceChanged "[constructor]")
        (Reachable.event _ _ (Event.setModel (some { displayUnit := 0 })) Reachable.construct rfl)
        rfl)
      rfl
  have hb : sampleFormReady.ui.pushButtonCreateContract = true := by decide
  exact ⟨hr, hb, (reachable_button_enabled sampleEnv sampleUi sampleFormReady hr).1 hb⟩

/-! ### C9: the amount of the confirmation -/

/-- C9: when the gas price is above `HIGH_GASPRICE` (wallet model set), the handler asks
one question whose text carries `formatWithUnit(unit, maxSpend gasLimit gasPrice)`,
with `gasLimit` the field value read into a `uint64_t`. For every `uint64_t` gas
limit and every gas price above `HIGH_GASPRICE`, the amount `maxSpend` is the product
modulo `2^64` read as a signed 64-bit amount; it is the exact product when the
product is below `2^63`, and can differ from it only when the product is at
least `2^63`. -/
theorem on_createContract_clicked_maxSpend (env : Env) (answer : StandardButton)
    (exec : Params → ExecOutcome) (s : State) (model : WalletModel)
    (hm : s.m_model = some model)
    (hp : s.ui.lineEditGasPrice.value > HIGH_GASPRICE)
    (hf : (exec (createParams env s model)).ok = true →
      (s.m_contractABI.functionAt s.m_ABIFunctionField.getSelectedFunction).isSome = true) :
    (∃ s' effects, on_createContract_clicked env answer exec s = some (s', effects) ∧
      effects.filter Effect.isQuestion =
        [Effect.question "High Gas price"
          (QString.arg
            "The Gas Price is too high, are you sure you want to possibly spend a max of %1 for this transaction?"
            1 (env.formatWithUnit model.displayUnit
              (maxSpend (toUInt64 s.ui.lineEditGasLimit.value) s.ui.lineEditGasPrice.value)))]) ∧
    (∀ gasLimit gasPrice : Int, 0 ≤ gasLimit → gasLimit < 2 ^ 64 → gasPrice > HIGH_GASPRICE →
      maxSpend gasLimit gasPrice = toInt64 ((gasLimit * gasPrice) % 2 ^ 64) ∧
      (gasLimit * gasPrice < 2 ^ 63 → maxSpend gasLimit gasPrice = gasLimit * gasPrice) ∧
      (maxSpend gasLimit gasPrice ≠ gasLimit * gasPrice → 2 ^ 63 ≤ gasLimit * gasPrice)) := by
  constructor
  · have hq : askedEffects env s model =
        [Effect.question "High Gas price"
          (QString.arg
            "The Gas Price is too high, are you sure you want to possibly spend a max of %1 for this transaction?"
            1 (env.formatWithUnit model.displayUnit
              (maxSpend (toUInt64 s.ui.lineEditGasLimit.value) s.ui.lineEditGasPrice.value)))] := by
      unfold askedEffects
      rw [if_pos hp]
      rfl
    rw [← hq]
    by_cases hd : s.ui.lineEditGasPrice.value > HIGH_GASPRICE ∧ answer = StandardButton.No
    · obtain ⟨_, ha⟩ := hd
      subst ha
      exact ⟨_, _, on_createContract_clicked_declined env exec s model hm hp,
        askedEffects_filter_isQuestion env s model⟩
    · cases hok : (exec (createParams env s model)).ok
      · refine ⟨_, _, on_createContract_clicked_failed env answer exec s model hm hd hok, ?_⟩
        rw [List.filter_append, askedEffects_filter_isQuestion]
        simp [Effect.isQuestion]
      · obtain ⟨function, hfun⟩ := Option.isSome_iff_exists.mp (hf hok)
        refine ⟨_, _,
          on_createContract_clicked_succeeded env answer exec s model function hm hd hok hfun, ?_⟩
        rw [List.filter_append, askedEffects_filter_isQuestion]
        simp [Effect.isQuestion]
  · intro gasLimit gasPrice h0 _ hgp
    have hprice : (0 : Int) ≤ gasPrice := by
      have : HIGH_GASPRICE = 100000 := HIGH_GASPRICE_eq
      omega
    have hprod : 0 ≤ gasLimit * gasPrice := mul_nonneg h0 hprice
    have hgen : maxSpend gasLimit gasPrice = toInt64 ((gasLimit * gasPrice) % 2 ^ 64) := by
      unfold maxSpend
      rw [toUInt64_mul_toUInt64]
    have hsmall : gasLimit * gasPrice < 2 ^ 63 → maxSpend gasLimit gasPrice = gasLimit * gasPrice := by
      intro hlt
      rw [hgen]
      exact toInt64_of_small _ hprod hlt
    refine ⟨hgen, hsmall, ?_⟩
    intro hne
    by_contra hlt
    exact hne (hsmall (not_le.mp hlt))

theorem on_createContract_clicked_maxSpend_witness :
    sampleFormHigh.m_model = some { displayUnit := 0 } ∧
    sampleFormHigh.ui.lineEditGasPrice.value > HIGH_GASPRICE ∧
    maxSpend 2500000 200000 = 500000000000 ∧
    maxSpend 2500000 4000000000000 = -8446744073709551616 := by
  have hp : sampleFormHigh.ui.lineEditGasPrice.value > HIGH_GASPRICE := by
    rw [HIGH_GASPRICE_eq]
    decide
  have h := (on_createContract_clicked_maxSpend sampleEnv StandardButton.Yes sampleExecFail
    sampleFormHigh { displayUnit := 0 } rfl hp (fun hok => absurd hok (by decide))).2
  have h1 : (200000 : Int) > HIGH_GASPRICE := by
    rw [HIGH_GASPRICE_eq]
    decide
  have h2 : (4000000000000 : Int) > HIGH_GASPRICE := by
    rw [HIGH_GASPRICE_eq]
    decide
  refine ⟨rfl, hp, ?_, ?_⟩
  · rw [(h 2500000 200000 (by decide) (by decide) h1).2.1 (by decide)]
    decide
  · rw [(h 2500000 4000000000000 (by decide) (by decide) h2).1]
    decide

/-! ### C10: a new interface text -/

/-- C10: for every interface text, `on_newContractABI` leaves as the ABI of the form, and
hands to the function field, the parsed ABI if `loads` returned true and the
cleaned ABI, which has no functions, if `loads` returned false; it then runs
`on_updateCreateButton` on the state in which the function field already holds
that ABI, so the button is enabled exactly when the rebuilt field reports a
function other than `-1`, the bytecode is not empty and page `0` is shown. -/
theorem on_newContractABI_abi (env : Env) (s : State) :
    ((env.loads s.ui.textEditInterface).1 = true →
      (on_newContractABI env s).m_contractABI = (env.loads s.ui.textEditInterface).2 ∧
      (on_newContractABI env s).m_ABIFunctionField =
        env.setContractABI (env.loads s.ui.textEditInterface).2) ∧
    ((env.loads s.ui.textEditInterface).1 = false →
      (on_newContractABI env s).m_contractABI = (env.loads s.ui.textEditInterface).2.clean ∧
      (on_newContractABI env s).m_contractABI.functions = [] ∧
      (on_newContractABI env s).m_ABIFunctionField =
        env.setContractABI (env.loads s.ui.textEditInterface).2.clean) ∧
    on_newContractABI env s =
      on_updateCreateButton { s with
        m_contractABI := (on_newContractABI env s).m_contractABI
        m_ABIFunctionField := env.setContractABI (on_newContractABI env s).m_contractABI } ∧
    ((on_newContractABI env s).ui.pushButtonCreateContract = true ↔
      ((env.setContractABI (on_newContractABI env s).m_contractABI).getSelectedFunction ≠ -1 ∧
        s.ui.textEditBytecode ≠ "" ∧ s.ui.stackedWidget.currentIndex = 0)) := by
  have hrun : on_newContractABI env s =
      on_updateCreateButton { s with
        m_contractABI := (on_newContractABI env s).m_contractABI
        m_ABIFunctionField := env.setContractABI (on_newContractABI env s).m_contractABI } := rfl
  refine ⟨?_, ?_, hrun, ?_⟩
  · intro h
    unfold on_newContractABI on_updateCreateButton
    simp [h]
  · intro h
    unfold on_newContractABI on_updateCreateButton
    simp [h, ContractABI.clean]
  · rw [hrun]
    exact on_updateCreateButton_button_iff _

end Qtum
